import Mathlib

/-!
Verification development for the air_exchange relay server.

The embedding follows the room-scoped server variant (the one whose rooms
carry `savedTexts`): an in-memory registry `roomData : Map<room, RoomData>`,
socket handlers (`joinRoom`, `textUpdate`, `deleteFile`, `deleteAllFiles`,
`clearText`, `setExpiry`, `cursorUpdate`, `saveText`, `deleteSavedText`,
`disconnect`), the HTTP endpoints (`/upload`, `/delete-all`,
`/delete-file/:filename`), and the periodic expiry sweeper.

Machine integers (`Date.now()` timestamps, expiry durations) are modelled as
`Int`; the filesystem blob store as the list of stored filenames, with
`unlinkSync` failing (throwing) exactly when the name is absent; the
`Map` registry as an association list whose operations mirror `Map.has`,
`Map.get`, `Map.set` and `Map.delete`.  Event emission is recorded as a list
of `Emit` values carrying the socket.io audience (`io.to(room)`,
`socket.to(room)`, `socket.emit`).
-/

/-- A File Record as pushed by the `/upload` endpoint:
`{ filename, originalname, timestamp, url }`. -/
structure FileRecord where
  filename : String
  originalname : String
  timestamp : Int
  url : String
  deriving DecidableEq

/-- A Saved Text Record as pushed by the `saveText` handler: content,
creation time, and its own expiry duration. -/
structure SavedText where
  text : String
  timestamp : Int
  expiry : Int
  deriving DecidableEq

/-- Room state: `{ text, files, expiry, users, savedTexts }` plus the
`lastTextUpdate` field that `textUpdate` attaches (absent until first set;
the sweeper reads it as `data.lastTextUpdate || 0`).  The `users` field is a
JS `Set<string>`, modelled as a duplicate-free list (insertion order). -/
structure RoomData where
  text : String
  lastTextUpdate : Option Int
  files : List FileRecord
  expiry : Int
  users : List String
  savedTexts : List SavedText
  deriving DecidableEq

/-- The registry `roomData : Map<string, RoomData>` as an association list. -/
abbrev Registry := List (String × RoomData)

/-- Model of `roomData.get(k)` / `roomData.has(k)`. -/
def regFind? (reg : Registry) (k : String) : Option RoomData :=
  match reg with
  | [] => none
  | (k', d) :: rest => if k' = k then some d else regFind? rest k

/-- Model of `roomData.set(k, d)`: replace the entry for `k` in place, or append. -/
def regInsert (reg : Registry) (k : String) (d : RoomData) : Registry :=
  match reg with
  | [] => [(k, d)]
  | (k', d') :: rest =>
      if k' = k then (k, d) :: rest else (k', d') :: regInsert rest k d

/-- Model of `roomData.delete(k)`. -/
def regErase (reg : Registry) (k : String) : Registry :=
  match reg with
  | [] => []
  | (k', d') :: rest => if k' = k then rest else (k', d') :: regErase rest k

/-- Room keys are namespaced: `` `wifi-${roomId}` ``. -/
def roomKey (roomId : String) : String := "wifi-" ++ roomId

/-- The defaults installed on first join / first upload:
`{ text: '', files: [], expiry: 1800000, users: new Set(), savedTexts: [] }`. -/
def defaultRoom : RoomData :=
  { text := ""
    lastTextUpdate := none
    files := []
    expiry := 1800000
    users := []
    savedTexts := [] }

/-- Model of `Set.add`: insert if not already present (JS sets ignore duplicates). -/
def addUser (id : String) (users : List String) : List String :=
  if id ∈ users then users else users ++ [id]

/-- The `if (!roomData.has(room)) roomData.set(room, defaults); roomData.get(room)`
pattern shared by `joinRoom` and `/upload`. -/
def getOrCreate (reg : Registry) (room : String) : RoomData × Registry :=
  match regFind? reg room with
  | some d => (d, reg)
  | none => (defaultRoom, regInsert reg room defaultRoom)

/-- Outbound event payloads (names follow the emitted socket.io events). -/
inductive Payload where
  | userCountUpdate (count : Nat)
  | initData (data : RoomData)
  | textUpdated (text : String)
  | fileDeleted (filename : String)
  | allFilesDeleted
  | notification (message : String)
  | clearTextSig
  | expiryUpdate (value : Int)
  | cursorMoved (id : String) (position : String)
  | newFile (f : FileRecord)
  | savedTextAdded (t : SavedText)
  | savedTextDeleted (index : Int)
  deriving DecidableEq

/-- The audience of an emission: `io.to(room).emit`, `socket.to(room).emit`
(room minus the sender), or `socket.emit` (one connection). -/
inductive Audience where
  | wholeRoom (k : String)
  | exceptSender (k : String) (sender : String)
  | onlySocket (sid : String)
  deriving DecidableEq

/-- One recorded emission. -/
structure Emit where
  audience : Audience
  payload : Payload
  deriving DecidableEq

/-- A connection: its transport id (`socket.id`) and the handler-scoped
`room` variable (set by `joinRoom`, `none` before any join). -/
structure Conn where
  socketId : String
  joinedRoom : Option String
  deriving DecidableEq

/-- Which connections a given audience reaches: a connection receives a
room-scoped event iff it has joined that room, and `socket.to(room)`
additionally excludes the sender. -/
def delivers : Audience → Conn → Bool
  | .wholeRoom k, c => c.joinedRoom == some k
  | .exceptSender k s, c => c.joinedRoom == some k && c.socketId != s
  | .onlySocket sid, c => c.socketId == sid

/-- Model of `socket.on('joinRoom', ({ roomId, clientId }))`:
join the namespaced room, create it with defaults if absent, add `clientId`
to `users`, emit `userCountUpdate` to the whole room and `init` (the room
snapshot) to the joining socket only.  Returns the new registry, the new
value of the handler-scoped `room` variable, and the emissions. -/
def joinRoom (reg : Registry) (socketId roomId clientId : String) :
    Registry × Option String × List Emit :=
  let room := roomKey roomId
  let (data, reg₁) := getOrCreate reg room
  let data' := { data with users := addUser clientId data.users }
  let reg₂ := regInsert reg₁ room data'
  (reg₂, some room,
    [ ⟨Audience.wholeRoom room, Payload.userCountUpdate data'.users.length⟩,
      ⟨Audience.onlySocket socketId, Payload.initData data'⟩ ])

/-- Model of `socket.on('textUpdate', ...)`: guarded by `if (!room) return`; sets the
room text and `lastTextUpdate = Date.now()`, then broadcasts to the room
except the sender.  `none` models the TypeError raised when the joined room
key has been deleted from the registry. -/
def textUpdate (reg : Registry) (joinedRoom : Option String) (socketId : String)
    (formattedText : String) (now : Int) : Option (Registry × List Emit) :=
  match joinedRoom with
  | none => some (reg, [])
  | some room =>
    match regFind? reg room with
    | none => none
    | some data =>
      let data' := { data with text := formattedText, lastTextUpdate := some now }
      some (regInsert reg room data',
        [⟨Audience.exceptSender room socketId, Payload.textUpdated formattedText⟩])

/-- Model of `socket.on('deleteFile', filename)`: filter the record out of the room's
files and emit `fileDeleted` to the whole room. -/
def deleteFile (reg : Registry) (joinedRoom : Option String) (filename : String) :
    Option (Registry × List Emit) :=
  match joinedRoom with
  | none => some (reg, [])
  | some room =>
    match regFind? reg room with
    | none => none
    | some data =>
      let data' := { data with files := data.files.filter (fun f => f.filename != filename) }
      some (regInsert reg room data',
        [⟨Audience.wholeRoom room, Payload.fileDeleted filename⟩])

/-- Model of `socket.on('deleteAllFiles')`. -/
def deleteAllFiles (reg : Registry) (joinedRoom : Option String) :
    Option (Registry × List Emit) :=
  match joinedRoom with
  | none => some (reg, [])
  | some room =>
    match regFind? reg room with
    | none => none
    | some data =>
      some (regInsert reg room { data with files := [] },
        [⟨Audience.wholeRoom room, Payload.allFilesDeleted⟩,
         ⟨Audience.wholeRoom room, Payload.notification "All files deleted"⟩])

/-- Model of `socket.on('clearText')`. -/
def clearText (reg : Registry) (joinedRoom : Option String) :
    Option (Registry × List Emit) :=
  match joinedRoom with
  | none => some (reg, [])
  | some room =>
    match regFind? reg room with
    | none => none
    | some data =>
      some (regInsert reg room { data with text := "" },
        [⟨Audience.wholeRoom room, Payload.clearTextSig⟩])

/-- Model of `socket.on('setExpiry', ({ roomId, expiryTime }))`: note the handler
shadows the connection's `room` variable with a local derived from the
payload, and only acts when `roomData.has(room)`. -/
def setExpiry (reg : Registry) (roomId : String) (expiryTime : Int) :
    Registry × List Emit :=
  let room := roomKey roomId
  match regFind? reg room with
  | none => (reg, [])
  | some data =>
    (regInsert reg room { data with expiry := expiryTime },
     [⟨Audience.wholeRoom room, Payload.expiryUpdate expiryTime⟩])

/-- Model of `socket.on('cursorUpdate', position)`: no registry access; relays the
sender id and position to the room except the sender. -/
def cursorUpdate (reg : Registry) (joinedRoom : Option String) (socketId : String)
    (position : String) : Option (Registry × List Emit) :=
  match joinedRoom with
  | none => some (reg, [])
  | some room =>
    some (reg, [⟨Audience.exceptSender room socketId,
                 Payload.cursorMoved socketId position⟩])

/-- Model of `socket.on('saveText', savedText)`: push onto `savedTexts`. -/
def saveText (reg : Registry) (joinedRoom : Option String) (savedText : SavedText) :
    Option (Registry × List Emit) :=
  match joinedRoom with
  | none => some (reg, [])
  | some room =>
    match regFind? reg room with
    | none => none
    | some data =>
      some (regInsert reg room { data with savedTexts := data.savedTexts ++ [savedText] },
        [⟨Audience.wholeRoom room, Payload.savedTextAdded savedText⟩])

/-- Model of `Array.prototype.splice(i, 1)`: remove one element at `i`, with JS's
clamping of the start index (negative counts from the end). -/
def spliceOne (l : List SavedText) (i : Int) : List SavedText :=
  let n : Int := l.length
  let start : Int := if i < 0 then max (n + i) 0 else min i n
  l.take start.toNat ++ l.drop (start.toNat + 1)

/-- Model of `socket.on('deleteSavedText', index)`. -/
def deleteSavedText (reg : Registry) (joinedRoom : Option String) (index : Int) :
    Option (Registry × List Emit) :=
  match joinedRoom with
  | none => some (reg, [])
  | some room =>
    match regFind? reg room with
    | none => none
    | some data =>
      some (regInsert reg room { data with savedTexts := spliceOne data.savedTexts index },
        [⟨Audience.wholeRoom room, Payload.savedTextDeleted index⟩])

/-- Model of `socket.on('disconnect')`: guarded by `room && roomData.has(room)`;
deletes `socket.id` from `users` (note: the id removed is the transport id,
not the `clientId` that `joinRoom` added), emits `userCountUpdate`, then
deletes the room iff users, files, text and savedTexts are all empty. -/
def disconnect (reg : Registry) (joinedRoom : Option String) (socketId : String) :
    Registry × List Emit :=
  match joinedRoom with
  | none => (reg, [])
  | some room =>
    match regFind? reg room with
    | none => (reg, [])
    | some data =>
      let data' := { data with users := data.users.erase socketId }
      let reg₁ := regInsert reg room data'
      let emits := [⟨Audience.wholeRoom room, Payload.userCountUpdate data'.users.length⟩]
      if data'.users.isEmpty && data'.files.isEmpty && data'.text == ""
          && data'.savedTexts.isEmpty
      then (regErase reg₁ room, emits)
      else (reg₁, emits)

/-- Result of an HTTP handler: response status, resulting registry, resulting
blob store (list of stored filenames), and emissions. -/
structure HttpResult where
  status : Nat
  registry : Registry
  blobs : List String
  emits : List Emit
  deriving DecidableEq

/-- Model of `fs.unlinkSync(path)`: remove the blob, throwing (`none`) when absent. -/
def unlinkSync (blobs : List String) (filename : String) : Option (List String) :=
  if blobs.contains filename then some (blobs.erase filename) else none

/-- The `files.forEach(file => fs.unlinkSync(...))` loop of `/delete-all`:
unlink each record's blob in order; an exception aborts the loop, leaving the
blobs removed so far gone.  Returns the blob store and whether it threw. -/
def unlinkEach (blobs : List String) : List FileRecord → List String × Bool
  | [] => (blobs, false)
  | f :: rest =>
    match unlinkSync blobs f.filename with
    | none => (blobs, true)
    | some blobs' => unlinkEach blobs' rest

/-- The file multer stores for `POST /upload` (already written to the blob
store before the handler body runs). -/
structure UploadedFile where
  filename : String
  originalname : String
  deriving DecidableEq

/-- Model of `POST /upload`: 400 without a file or `x-room-id` header; otherwise
get-or-create the room, push the File Record, emit `newFile` and a
notification, 200. -/
def uploadRoute (reg : Registry) (blobs : List String) (file : Option UploadedFile)
    (roomIdHeader : Option String) (now : Int) : HttpResult :=
  match file with
  | none => ⟨400, reg, blobs, []⟩
  | some f =>
    match roomIdHeader with
    | none => ⟨400, reg, blobs, []⟩
    | some roomId =>
      let room := roomKey roomId
      let (data, reg₁) := getOrCreate reg room
      let fileData : FileRecord :=
        ⟨f.filename, f.originalname, now,
         "https://air-exchange.onrender.com/uploads/" ++ f.filename⟩
      let data' := { data with files := data.files ++ [fileData] }
      ⟨200, regInsert reg₁ room data', blobs ++ [f.filename],
        [⟨Audience.wholeRoom room, Payload.newFile fileData⟩,
         ⟨Audience.wholeRoom room,
          Payload.notification ("New file uploaded: " ++ f.originalname)⟩]⟩

/-- Model of `DELETE /delete-all`: 400 without `x-room-id`, 404 when the room is
absent; otherwise unlink every recorded blob (an exception is caught and
answered with 500, before the registry is touched), clear the room's files,
emit, 200. -/
def deleteAllRoute (reg : Registry) (blobs : List String)
    (roomIdHeader : Option String) : HttpResult :=
  match roomIdHeader with
  | none => ⟨400, reg, blobs, []⟩
  | some roomId =>
    let room := roomKey roomId
    match regFind? reg room with
    | none => ⟨404, reg, blobs, []⟩
    | some data =>
      match unlinkEach blobs data.files with
      | (blobs', true) => ⟨500, reg, blobs', []⟩
      | (blobs', false) =>
        ⟨200, regInsert reg room { data with files := [] }, blobs',
          [⟨Audience.wholeRoom room, Payload.allFilesDeleted⟩,
           ⟨Audience.wholeRoom room, Payload.notification "All files deleted"⟩]⟩

/-- Model of `DELETE /delete-file/:filename`: 400 without `x-room-id`, 404 when the
room is absent; then `fs.unlinkSync` runs with no existence check, so a
missing blob throws and is answered with 500 (registry untouched); on
success the record is filtered out, `fileDeleted` emitted, 200. -/
def deleteFileRoute (reg : Registry) (blobs : List String)
    (roomIdHeader : Option String) (filename : String) : HttpResult :=
  match roomIdHeader with
  | none => ⟨400, reg, blobs, []⟩
  | some roomId =>
    let room := roomKey roomId
    match regFind? reg room with
    | none => ⟨404, reg, blobs, []⟩
    | some data =>
      match unlinkSync blobs filename with
      | none => ⟨500, reg, blobs, []⟩
      | some blobs' =>
        ⟨200,
         regInsert reg room
           { data with files := data.files.filter (fun f => f.filename != filename) },
         blobs',
         [⟨Audience.wholeRoom room, Payload.fileDeleted filename⟩,
          ⟨Audience.wholeRoom room, Payload.notification ("File deleted: " ++ filename)⟩]⟩

/-- Model of `data.expiry || 1800000`: the room's configured expiry with the falsy
fallback to 30 minutes. -/
def effectiveExpiry (d : RoomData) : Int :=
  if d.expiry == 0 then 1800000 else d.expiry

/-- One room's share of the sweeper body: when some file outlived the room
expiry, or non-empty text outlived it, or some saved text outlived its own
expiry, filter files by the room expiry and saved texts by their own expiry,
clear stale text (emitting `clearText`), then delete the room when entirely
empty, else broadcast the updated snapshot via `init`.  Returns the room's
new state (`none` = deleted) and the emissions. -/
def sweepRoom (now : Int) (room : String) (data : RoomData) :
    Option RoomData × List Emit :=
  let expiryTime := effectiveExpiry data
  if data.files.any (fun f => decide (now - f.timestamp > expiryTime)) ||
      (data.text != "" && decide (now - data.lastTextUpdate.getD 0 > expiryTime)) ||
      data.savedTexts.any (fun t => decide (now - t.timestamp > t.expiry))
  then
    let files' := data.files.filter (fun f => decide (now - f.timestamp ≤ expiryTime))
    let saved' := data.savedTexts.filter (fun t => decide (now - t.timestamp ≤ t.expiry))
    let textStale := decide (now - data.lastTextUpdate.getD 0 > expiryTime)
    let text' := if textStale then "" else data.text
    let clearEmits :=
      if textStale then [⟨Audience.wholeRoom room, Payload.clearTextSig⟩] else []
    let data' := { data with files := files', savedTexts := saved', text := text' }
    if files'.isEmpty && text' == "" && data'.users.isEmpty && saved'.isEmpty
    then (none, clearEmits)
    else (some data', clearEmits ++ [⟨Audience.wholeRoom room, Payload.initData data'⟩])
  else (some data, [])

/-- The sweeper's `roomData.forEach`: process every room once. -/
def sweep (now : Int) : Registry → Registry × List Emit
  | [] => ([], [])
  | (room, data) :: rest =>
    let (res, emits) := sweepRoom now room data
    let (rest', restEmits) := sweep now rest
    match res with
    | some d => ((room, d) :: rest', emits ++ restEmits)
    | none => (rest', emits ++ restEmits)

/-- Observation helper: the files of a swept room (`[]` when deleted). -/
def filesAfter (r : Option RoomData × List Emit) : List FileRecord :=
  match r.1 with
  | some d => d.files
  | none => []

/-- Observation helper: the saved texts of a swept room (`[]` when deleted). -/
def savedAfter (r : Option RoomData × List Emit) : List SavedText :=
  match r.1 with
  | some d => d.savedTexts
  | none => []

theorem regFind?_regInsert_self (reg : Registry) (k : String) (d : RoomData) :
    regFind? (regInsert reg k d) k = some d := by
  induction reg with
  | nil => simp [regInsert, regFind?]
  | cons hd tl ih =>
    obtain ⟨k₀, d₀⟩ := hd
    by_cases h : k₀ = k
    · simp [regInsert, regFind?, h]
    · simp [regInsert, regFind?, h, ih]

theorem regFind?_regInsert_ne (reg : Registry) (k k' : String) (d : RoomData)
    (h : k' ≠ k) : regFind? (regInsert reg k d) k' = regFind? reg k' := by
  induction reg with
  | nil => simp [regInsert, regFind?, Ne.symm h]
  | cons hd tl ih =>
    obtain ⟨k₀, d₀⟩ := hd
    by_cases hk : k₀ = k
    · subst hk
      simp [regInsert, regFind?, Ne.symm h]
    · simp [regInsert, regFind?, hk, ih]

theorem regErase_regInsert (reg : Registry) (k : String) (d : RoomData) :
    regErase (regInsert reg k d) k = regErase reg k := by
  induction reg with
  | nil => simp [regInsert, regErase]
  | cons hd tl ih =>
    obtain ⟨k₀, d₀⟩ := hd
    by_cases hk : k₀ = k
    · subst hk; simp [regInsert, regErase]
    · simp [regInsert, regErase, hk, ih]

theorem regFind?_eq_none_of_not_mem (reg : Registry) (k : String)
    (h : k ∉ reg.map Prod.fst) : regFind? reg k = none := by
  induction reg with
  | nil => simp [regFind?]
  | cons hd tl ih =>
    obtain ⟨k₀, d₀⟩ := hd
    simp only [List.map_cons, List.mem_cons, not_or] at h
    simp [regFind?, Ne.symm h.1, ih h.2]

theorem regFind?_regErase_self (reg : Registry) (k : String)
    (hnd : (reg.map Prod.fst).Nodup) : regFind? (regErase reg k) k = none := by
  induction reg with
  | nil => simp [regErase, regFind?]
  | cons hd tl ih =>
    obtain ⟨k₀, d₀⟩ := hd
    simp only [List.map_cons, List.nodup_cons] at hnd
    by_cases hk : k₀ = k
    · subst hk
      simp only [regErase, if_pos rfl]
      exact regFind?_eq_none_of_not_mem tl k₀ hnd.1
    · simp [regErase, regFind?, hk, ih hnd.2]

theorem isSome_regFind?_regInsert (reg : Registry) (k k' : String) (d : RoomData)
    (h : (regFind? reg k).isSome) :
    (regFind? (regInsert reg k d) k').isSome = (regFind? reg k').isSome := by
  by_cases hk : k' = k
  · subst hk
    rw [regFind?_regInsert_self]
    simp [h]
  · rw [regFind?_regInsert_ne reg k k' d hk]

theorem filesAfter_sweepRoom (now : Int) (room : String) (data : RoomData) :
    filesAfter (sweepRoom now room data) =
      data.files.filter (fun f => decide (now - f.timestamp ≤ effectiveExpiry data)) := by
  simp only [sweepRoom]
  split_ifs with h1 h2 h3 h4
  · simp only [Bool.and_eq_true] at h3
    simp only [filesAfter]
    rw [List.isEmpty_iff.mp (by tauto :
      (List.filter (fun f => decide (now - f.timestamp ≤ effectiveExpiry data))
        data.files).isEmpty = true)]
  · simp [filesAfter]
  · simp only [Bool.and_eq_true] at h4
    simp only [filesAfter]
    rw [List.isEmpty_iff.mp (by tauto :
      (List.filter (fun f => decide (now - f.timestamp ≤ effectiveExpiry data))
        data.files).isEmpty = true)]
  · simp [filesAfter]
  · simp only [filesAfter]
    have hA : ¬ (data.files.any
        (fun f => decide (now - f.timestamp > effectiveExpiry data)) = true) := by
      intro hx
      exact h1 (by simp [hx])
    simp only [List.any_eq_true, not_exists] at hA
    refine (List.filter_eq_self.mpr ?_).symm
    intro f hf
    have hle : ¬ (now - f.timestamp > effectiveExpiry data) := by
      intro hgt
      exact hA f ⟨hf, by simpa using hgt⟩
    simpa using not_lt.mp hle

theorem savedAfter_sweepRoom (now : Int) (room : String) (data : RoomData) :
    savedAfter (sweepRoom now room data) =
      data.savedTexts.filter (fun t => decide (now - t.timestamp ≤ t.expiry)) := by
  simp only [sweepRoom]
  split_ifs with h1 h2 h3 h4
  · simp only [Bool.and_eq_true] at h3
    simp only [savedAfter]
    rw [List.isEmpty_iff.mp (by tauto :
      (List.filter (fun t => decide (now - t.timestamp ≤ t.expiry))
        data.savedTexts).isEmpty = true)]
  · simp [savedAfter]
  · simp only [Bool.and_eq_true] at h4
    simp only [savedAfter]
    rw [List.isEmpty_iff.mp (by tauto :
      (List.filter (fun t => decide (now - t.timestamp ≤ t.expiry))
        data.savedTexts).isEmpty = true)]
  · simp [savedAfter]
  · simp only [savedAfter]
    have hA : ¬ (data.savedTexts.any
        (fun t => decide (now - t.timestamp > t.expiry)) = true) := by
      intro hx
      exact h1 (by simp [hx])
    simp only [List.any_eq_true, not_exists] at hA
    refine (List.filter_eq_self.mpr ?_).symm
    intro t ht
    have hle : ¬ (now - t.timestamp > t.expiry) := by
      intro hgt
      exact hA t ⟨ht, by simpa using hgt⟩
    simpa using not_lt.mp hle

/-- C9: every realtime event other than `joinRoom` and `setExpiry`
(`textUpdate`, `deleteFile`, `deleteAllFiles`, `clearText`, `cursorUpdate`,
`saveText`, `deleteSavedText`) received on a connection that has not yet
joined a room (its `room` variable is unset) returns without any registry
access: the registry is unchanged and no event is emitted. -/
theorem C9_unjoined_events_are_noops (reg : Registry)
    (socketId content filename position : String) (now : Int)
    (st : SavedText) (index : Int) :
    textUpdate reg none socketId content now = some (reg, [])
  ∧ deleteFile reg none filename = some (reg, [])
  ∧ deleteAllFiles reg none = some (reg, [])
  ∧ clearText reg none = some (reg, [])
  ∧ cursorUpdate reg none socketId position = some (reg, [])
  ∧ saveText reg none st = some (reg, [])
  ∧ deleteSavedText reg none index = some (reg, []) :=
  ⟨rfl, rfl, rfl, rfl, rfl, rfl, rfl⟩

/-- C10: a `setExpiry` event whose roomId maps to a room key absent from the
registry is a complete no-op: it does not create the room, changes no
registry state, and emits nothing; when the room exists, its expiry field is
replaced and `expiryUpdate` is broadcast to the whole room. -/
theorem C10_setExpiry_absent_noop (reg : Registry) (roomId : String)
    (expiryTime : Int) :
    (regFind? reg (roomKey roomId) = none →
      setExpiry reg roomId expiryTime = (reg, []))
  ∧ ∀ d, regFind? reg (roomKey roomId) = some d →
      setExpiry reg roomId expiryTime =
        (regInsert reg (roomKey roomId) { d with expiry := expiryTime },
         [⟨Audience.wholeRoom (roomKey roomId), Payload.expiryUpdate expiryTime⟩]) := by
  constructor
  · intro h
    simp [setExpiry, h]
  · intro d h
    simp [setExpiry, h]

/-- Witness for C10 at a concrete absent key and a concrete present key. -/
theorem C10_setExpiry_witness :
    setExpiry [] "a" 5 = ([], [])
  ∧ setExpiry [(roomKey "a", defaultRoom)] "a" 5 =
      (regInsert [(roomKey "a", defaultRoom)] (roomKey "a")
        { defaultRoom with expiry := 5 },
       [⟨Audience.wholeRoom (roomKey "a"), Payload.expiryUpdate 5⟩]) :=
  ⟨(C10_setExpiry_absent_noop [] "a" 5).1 (by decide),
   (C10_setExpiry_absent_noop [(roomKey "a", defaultRoom)] "a" 5).2 defaultRoom
     (by decide)⟩

/-- C6: for a key absent from the registry, the lookup performed on first
join or first upload registers a room whose fields are exactly the defaults
(text `""`, no files, expiry 1800000 ms, no users before the joining
identifier is added, no saved texts); a first join then stores the defaults
with just the joining identifier; for a key already present, the existing
state is returned with the registry unchanged. -/
theorem C6_getOrCreate_defaults (reg : Registry)
    (socketId roomId clientId : String) :
    (regFind? reg (roomKey roomId) = none →
        getOrCreate reg (roomKey roomId) =
          (defaultRoom, regInsert reg (roomKey roomId) defaultRoom)
      ∧ defaultRoom.text = "" ∧ defaultRoom.files = []
      ∧ defaultRoom.expiry = 1800000 ∧ defaultRoom.users = []
      ∧ defaultRoom.savedTexts = []
      ∧ regFind? (joinRoom reg socketId roomId clientId).1 (roomKey roomId) =
          some { defaultRoom with users := [clientId] })
  ∧ ∀ d, regFind? reg (roomKey roomId) = some d →
      getOrCreate reg (roomKey roomId) = (d, reg) := by
  constructor
  · intro h
    refine ⟨by simp [getOrCreate, h], rfl, rfl, rfl, rfl, rfl, ?_⟩
    simp [joinRoom, getOrCreate, h, addUser, defaultRoom, regFind?_regInsert_self]
  · intro d h
    simp [getOrCreate, h]

/-- Witness for C6: first lookup and first join on an empty registry, and a
lookup on a registry that already holds the key. -/
theorem C6_getOrCreate_witness :
    getOrCreate [] (roomKey "a") = (defaultRoom, regInsert [] (roomKey "a") defaultRoom)
  ∧ regFind? (joinRoom [] "s1" "a" "alice").1 (roomKey "a") =
      some { defaultRoom with users := ["alice"] }
  ∧ getOrCreate [(roomKey "b", defaultRoom)] (roomKey "b") =
      (defaultRoom, [(roomKey "b", defaultRoom)]) := by
  have h1 := (C6_getOrCreate_defaults [] "s1" "a" "alice").1 (by decide)
  have h2 := (C6_getOrCreate_defaults [(roomKey "b", defaultRoom)] "s1" "b" "alice").2
      defaultRoom (by decide)
  exact ⟨h1.1, h1.2.2.2.2.2.2, h2⟩

/-- C7: a `textUpdate` sent by connection `A` joined to room `X` stores the
content as the room's text, stamps `lastTextUpdate` with the current time,
and broadcasts one event whose audience is room `X` minus the sender: it
reaches every other connection joined to `X`, reaches no connection joined
to a different room `Y`, and is never echoed back to `A`. -/
theorem C7_textUpdate_isolation (reg : Registry) (X : String) (d : RoomData)
    (A : Conn) (content : String) (now : Int)
    (hA : A.joinedRoom = some X) (hd : regFind? reg X = some d) :
    textUpdate reg A.joinedRoom A.socketId content now =
      some (regInsert reg X { d with text := content, lastTextUpdate := some now },
        [⟨Audience.exceptSender X A.socketId, Payload.textUpdated content⟩])
  ∧ (∀ c : Conn, c.joinedRoom = some X → c.socketId ≠ A.socketId →
      delivers (Audience.exceptSender X A.socketId) c = true)
  ∧ (∀ c : Conn, ∀ Y, c.joinedRoom = some Y → Y ≠ X →
      delivers (Audience.exceptSender X A.socketId) c = false)
  ∧ delivers (Audience.exceptSender X A.socketId) A = false := by
  refine ⟨by simp [textUpdate, hA, hd], ?_, ?_, ?_⟩
  · intro c h1 h2
    simp [delivers, h1, h2]
  · intro c Y h1 h2
    simp [delivers, h1, h2]
  · simp [delivers]

/-- Witness for C7: a two-room registry with a sender, a peer in the same
room, a client in the other room, and the sender itself. -/
theorem C7_textUpdate_witness :
    textUpdate [(roomKey "a", defaultRoom)] (some (roomKey "a")) "s1" "hello" 7 =
      some (regInsert [(roomKey "a", defaultRoom)] (roomKey "a")
          { defaultRoom with text := "hello", lastTextUpdate := some 7 },
        [⟨Audience.exceptSender (roomKey "a") "s1", Payload.textUpdated "hello"⟩])
  ∧ delivers (Audience.exceptSender (roomKey "a") "s1") ⟨"s2", some (roomKey "a")⟩ = true
  ∧ delivers (Audience.exceptSender (roomKey "a") "s1") ⟨"s3", some (roomKey "b")⟩ = false
  ∧ delivers (Audience.exceptSender (roomKey "a") "s1") ⟨"s1", some (roomKey "a")⟩ = false := by
  have h := C7_textUpdate_isolation [(roomKey "a", defaultRoom)] (roomKey "a")
      defaultRoom ⟨"s1", some (roomKey "a")⟩ "hello" 7 rfl (by decide)
  exact ⟨h.1, h.2.1 ⟨"s2", some (roomKey "a")⟩ rfl (by decide),
         h.2.2.1 ⟨"s3", some (roomKey "b")⟩ (roomKey "b") rfl (by decide),
         h.2.2.2⟩

/-- C4: after one sweeper pass over a room at time `now`, with the room's
configured expiry (falling back to 30 minutes when unset/zero), a File
Record is absent from the room's files exactly when its age exceeds that
expiry; the records whose age is at most the expiry remain, unchanged and in
their original order (the surviving list is the order-preserving filter of
the original). -/
theorem C4_sweep_file_expiry (now : Int) (room : String) (data : RoomData) :
    filesAfter (sweepRoom now room data) =
      data.files.filter (fun f => decide (now - f.timestamp ≤ effectiveExpiry data))
  ∧ ∀ f : FileRecord,
      f ∈ filesAfter (sweepRoom now room data) ↔
        f ∈ data.files ∧ now - f.timestamp ≤ effectiveExpiry data := by
  refine ⟨filesAfter_sweepRoom now room data, ?_⟩
  intro f
  rw [filesAfter_sweepRoom now room data]
  simp [List.mem_filter]

/-- C5: one sweeper pass evicts a Saved Text Record exactly when its age
exceeds the record's own `expiry` field; the surviving list is the
order-preserving filter under that per-record predicate, and the room's
configured expiry plays no role: changing the room expiry to any value
leaves the surviving saved texts identical. -/
theorem C5_sweep_saved_text_own_expiry (now : Int) (room : String)
    (data : RoomData) :
    savedAfter (sweepRoom now room data) =
      data.savedTexts.filter (fun t => decide (now - t.timestamp ≤ t.expiry))
  ∧ (∀ t : SavedText, t ∈ savedAfter (sweepRoom now room data) ↔
        t ∈ data.savedTexts ∧ now - t.timestamp ≤ t.expiry)
  ∧ ∀ e : Int, savedAfter (sweepRoom now room { data with expiry := e }) =
        savedAfter (sweepRoom now room data) := by
  refine ⟨savedAfter_sweepRoom now room data, ?_, ?_⟩
  · intro t
    rw [savedAfter_sweepRoom now room data]
    simp [List.mem_filter]
  · intro e
    rw [savedAfter_sweepRoom, savedAfter_sweepRoom]

/-- C1 (amended): the emptiness-based room pruning runs only in the
disconnect handler and the sweeper, not after every operation: disconnect
deletes the room exactly when, after removing the transport id from `users`,
the users set, files, text and saved texts are all empty; the HTTP
delete-all and delete-file endpoints never change whether a room key is
registered, even when they empty the room's last content while no user is
connected. -/
theorem C1_registry_pruning_points (reg : Registry) (room socketId : String)
    (d : RoomData) (hnd : (reg.map Prod.fst).Nodup)
    (hd : regFind? reg room = some d) :
    (regFind? (disconnect reg (some room) socketId).1 room = none ↔
      (d.users.erase socketId = [] ∧ d.files = [] ∧ d.text = ""
        ∧ d.savedTexts = []))
  ∧ (∀ blobs rid k,
      (regFind? (deleteAllRoute reg blobs rid).registry k).isSome =
        (regFind? reg k).isSome)
  ∧ (∀ blobs rid filename k,
      (regFind? (deleteFileRoute reg blobs rid filename).registry k).isSome =
        (regFind? reg k).isSome) := by
  refine ⟨?_, ?_, ?_⟩
  · simp only [disconnect, hd]
    split_ifs with hc
    · rw [regErase_regInsert, regFind?_regErase_self reg room hnd]
      simp only [Bool.and_eq_true, List.isEmpty_iff, beq_iff_eq] at hc
      simp [hc]
    · rw [regFind?_regInsert_self]
      simp only [Bool.and_eq_true, List.isEmpty_iff, beq_iff_eq] at hc
      exact iff_of_false (by simp) (by tauto)
  · intro blobs rid k
    cases rid with
    | none => rfl
    | some r =>
      cases hfind : regFind? reg (roomKey r) with
      | none => simp [deleteAllRoute, hfind]
      | some data =>
        cases hEach : unlinkEach blobs data.files with
        | mk blobs' threw =>
          cases threw
          · simp only [deleteAllRoute, hfind, hEach]
            exact isSome_regFind?_regInsert reg (roomKey r) k _ (by simp [hfind])
          · simp [deleteAllRoute, hfind, hEach]
  · intro blobs rid filename k
    cases rid with
    | none => rfl
    | some r =>
      cases hfind : regFind? reg (roomKey r) with
      | none => simp [deleteFileRoute, hfind]
      | some data =>
        cases hU : unlinkSync blobs filename with
        | none => simp [deleteFileRoute, hfind, hU]
        | some blobs' =>
          simp only [deleteFileRoute, hfind, hU]
          exact isSome_regFind?_regInsert reg (roomKey r) k _ (by simp [hfind])

/-- Counterexample to C1 as stated: a room holding one file and nothing
else, with no connected user; `DELETE /delete-all` empties its last content
and answers 200, yet the room key is still present in the registry with
users, files, text and saved texts all empty — the "absent iff empty"
invariant does not hold at this observation point. -/
theorem C1_counterexample :
    (deleteAllRoute
        [(roomKey "a", { defaultRoom with files := [⟨"f0", "doc.txt", 0, "u"⟩] })]
        ["f0"] (some "a")).status = 200
  ∧ regFind?
      (deleteAllRoute
        [(roomKey "a", { defaultRoom with files := [⟨"f0", "doc.txt", 0, "u"⟩] })]
        ["f0"] (some "a")).registry (roomKey "a") = some defaultRoom
  ∧ defaultRoom.users = [] ∧ defaultRoom.files = [] ∧ defaultRoom.text = ""
  ∧ defaultRoom.savedTexts = [] := by
  decide

/-- Witness for C1 (amended) at a concrete one-room registry. -/
theorem C1_pruning_witness :
    (regFind? (disconnect [(roomKey "a", { defaultRoom with users := ["s1"] })]
        (some (roomKey "a")) "s1").1 (roomKey "a") = none ↔
      (List.erase ["s1"] "s1" = ([] : List String)
        ∧ ([] : List FileRecord) = [] ∧ ("" : String) = ""
        ∧ ([] : List SavedText) = []))
  ∧ (regFind? (deleteAllRoute [(roomKey "a", { defaultRoom with users := ["s1"] })]
        [] (some "a")).registry (roomKey "a")).isSome =
      (regFind? [(roomKey "a", { defaultRoom with users := ["s1"] })] (roomKey "a")).isSome
  ∧ (regFind? (deleteFileRoute [(roomKey "a", { defaultRoom with users := ["s1"] })]
        [] (some "a") "f0").registry (roomKey "a")).isSome =
      (regFind? [(roomKey "a", { defaultRoom with users := ["s1"] })] (roomKey "a")).isSome := by
  have h := C1_registry_pruning_points
      [(roomKey "a", { defaultRoom with users := ["s1"] })]
      (roomKey "a") "s1" { defaultRoom with users := ["s1"] } (by decide) (by decide)
  exact ⟨h.1, h.2.1 [] (some "a") (roomKey "a"), h.2.2 [] (some "a") "f0" (roomKey "a")⟩

/-- Counterexample to C2 as stated: the room exists but the named blob is
absent from the store; the claim requires 404, the endpoint answers 500
(`fs.unlinkSync` throws and the catch block responds 500). -/
theorem C2_counterexample :
    (deleteFileRoute
      [(roomKey "a", { defaultRoom with files := [⟨"f0", "doc.txt", 0, "u"⟩] })]
      [] (some "a") "f0").status = 500
  ∧ (deleteFileRoute
      [(roomKey "a", { defaultRoom with files := [⟨"f0", "doc.txt", 0, "u"⟩] })]
      [] (some "a") "f0").status ≠ 404 := by
  decide

/-- C2 (amended): for `DELETE /delete-file/:filename` with an `x-room-id`
header: if the room is absent the response is 404; if the room exists but
the named blob is absent the unlink throws and the response is 500 with
registry and blob store unchanged; otherwise the blob is unlinked, the File
Record with that filename is removed from the room's files, `fileDeleted`
is emitted, and the response is 200. -/
theorem C2_delete_file_statuses (reg : Registry) (blobs : List String)
    (roomId filename : String) :
    (regFind? reg (roomKey roomId) = none →
      deleteFileRoute reg blobs (some roomId) filename = ⟨404, reg, blobs, []⟩)
  ∧ ∀ d, regFind? reg (roomKey roomId) = some d →
      (filename ∉ blobs →
        deleteFileRoute reg blobs (some roomId) filename = ⟨500, reg, blobs, []⟩)
    ∧ (filename ∈ blobs →
        deleteFileRoute reg blobs (some roomId) filename =
          ⟨200,
           regInsert reg (roomKey roomId)
             { d with files := d.files.filter (fun f => f.filename != filename) },
           blobs.erase filename,
           [⟨Audience.wholeRoom (roomKey roomId), Payload.fileDeleted filename⟩,
            ⟨Audience.wholeRoom (roomKey roomId),
             Payload.notification ("File deleted: " ++ filename)⟩]⟩) := by
  constructor
  · intro h
    simp [deleteFileRoute, h]
  · intro d h
    constructor
    · intro hb
      simp [deleteFileRoute, unlinkSync, h, hb]
    · intro hb
      simp [deleteFileRoute, unlinkSync, h, hb]

/-- Witness for C2 (amended): absent room, present room with absent blob,
and present room with present blob. -/
theorem C2_delete_file_witness :
    deleteFileRoute [] [] (some "a") "f0" = ⟨404, [], [], []⟩
  ∧ deleteFileRoute [(roomKey "a", defaultRoom)] [] (some "a") "f0" =
      ⟨500, [(roomKey "a", defaultRoom)], [], []⟩
  ∧ deleteFileRoute [(roomKey "a", defaultRoom)] ["f0"] (some "a") "f0" =
      ⟨200,
       regInsert [(roomKey "a", defaultRoom)] (roomKey "a")
         { defaultRoom with
            files := defaultRoom.files.filter (fun f => f.filename != "f0") },
       List.erase ["f0"] "f0",
       [⟨Audience.wholeRoom (roomKey "a"), Payload.fileDeleted "f0"⟩,
        ⟨Audience.wholeRoom (roomKey "a"),
         Payload.notification ("File deleted: " ++ "f0")⟩]⟩ := by
  refine ⟨(C2_delete_file_statuses [] [] "a" "f0").1 (by decide), ?_, ?_⟩
  · exact ((C2_delete_file_statuses [(roomKey "a", defaultRoom)] [] "a" "f0").2
      defaultRoom (by decide)).1 (by decide)
  · exact ((C2_delete_file_statuses [(roomKey "a", defaultRoom)] ["f0"] "a" "f0").2
      defaultRoom (by decide)).2 (by decide)

/-- C3 (code evaluation at the failing input): in the variant where
`joinRoom` supplies a stable client identifier, a single join (clientId
`"alice"` on the connection with transport id `"s1"`) followed by that
connection's disconnect does NOT restore the users set: the disconnect
handler removes `socket.id` (`"s1"`), not the joined `clientId`, so
`"alice"` stays in `users` forever and the room survives. -/
theorem C3_join_disconnect_identifier_mismatch :
    (joinRoom [] "s1" "a" "alice").2.1 = some (roomKey "a")
  ∧ regFind? (joinRoom [] "s1" "a" "alice").1 (roomKey "a") =
      some { defaultRoom with users := ["alice"] }
  ∧ regFind?
      (disconnect (joinRoom [] "s1" "a" "alice").1
        (joinRoom [] "s1" "a" "alice").2.1 "s1").1 (roomKey "a") =
      some { defaultRoom with users := ["alice"] } := by
  decide

/-- C8: when a filesystem unlink raises during `DELETE /delete-file` (blob
absent) or during the `DELETE /delete-all` unlink loop, the response status
is 500 and the registry — hence the room's files, text, expiry, users, and
saved texts — is exactly what it was before the request: both endpoints
touch the registry only after all unlinks succeed. -/
theorem C8_storage_error_registry_untouched (reg : Registry)
    (blobs : List String) (roomId : String) (d : RoomData)
    (hd : regFind? reg (roomKey roomId) = some d) :
    (∀ filename, filename ∉ blobs →
        (deleteFileRoute reg blobs (some roomId) filename).status = 500
      ∧ (deleteFileRoute reg blobs (some roomId) filename).registry = reg)
  ∧ ((unlinkEach blobs d.files).2 = true →
        (deleteAllRoute reg blobs (some roomId)).status = 500
      ∧ (deleteAllRoute reg blobs (some roomId)).registry = reg) := by
  constructor
  · intro filename hb
    constructor <;> simp [deleteFileRoute, unlinkSync, hd, hb]
  · intro hthrow
    cases hEq : unlinkEach blobs d.files with
    | mk blobs' threw =>
      rw [hEq] at hthrow
      simp only at hthrow
      subst hthrow
      constructor <;> simp [deleteAllRoute, hd, hEq]

/-- Witness for C8: a room recording one file whose blob is missing, for
both endpoints. -/
theorem C8_storage_error_witness :
    ((deleteFileRoute [(roomKey "a", { defaultRoom with files := [⟨"f0", "doc.txt", 0, "u"⟩] })]
        [] (some "a") "f0").status = 500
      ∧ (deleteFileRoute [(roomKey "a", { defaultRoom with files := [⟨"f0", "doc.txt", 0, "u"⟩] })]
        [] (some "a") "f0").registry =
          [(roomKey "a", { defaultRoom with files := [⟨"f0", "doc.txt", 0, "u"⟩] })])
  ∧ ((deleteAllRoute [(roomKey "a", { defaultRoom with files := [⟨"f0", "doc.txt", 0, "u"⟩] })]
        [] (some "a")).status = 500
      ∧ (deleteAllRoute [(roomKey "a", { defaultRoom with files := [⟨"f0", "doc.txt", 0, "u"⟩] })]
        [] (some "a")).registry =
          [(roomKey "a", { defaultRoom with files := [⟨"f0", "doc.txt", 0, "u"⟩] })]) := by
  have h := C8_storage_error_registry_untouched
      [(roomKey "a", { defaultRoom with files := [⟨"f0", "doc.txt", 0, "u"⟩] })]
      [] "a" { defaultRoom with files := [⟨"f0", "doc.txt", 0, "u"⟩] } (by decide)
  exact ⟨h.1 "f0" (by decide), h.2 (by decide)⟩
